import Mathlib

/-!
Verification of the `lantern` extendedness filter.

The repository consists of two near-duplicate Python modules
(`filters/extendedness.py` and `src/lantern/filters/extendedness.py`), each a
pure function `evaluate(props)` applying a fixed sequence of threshold cuts to
the numeric and boolean fields of one alert, plus an `_ellipticity` helper.
The two modules share the algorithm and differ only in their threshold values,
so we embed the algorithm once, parameterised by a threshold configuration,
and define both shipped presets as configuration values.

Python floats are modelled as real numbers; the Python dict of alert
properties is modelled both as a structure (`AlertProps`, for the cut logic)
and as a partial mapping (`String → Option PropValue`, to reason about
missing keys and the KeyError behaviour).
-/

open Real

/-- The input record: one field per key the source reads from the
properties dict (`evaluate`, lines 31-43 and 48-56 of
`filters/extendedness.py`). -/
@[ext]
structure AlertProps where
  psfFlux : ℝ
  apFlux : ℝ
  scienceFlux : ℝ
  templateFlux : ℝ
  snr : ℝ
  band : String
  ixx : ℝ
  iyy : ℝ
  ixy : ℝ
  ixxPSF : ℝ
  iyyPSF : ℝ
  ixyPSF : ℝ
  apFlux_flag : Bool
  psfFlux_flag : Bool
  pixelFlags_cr : Bool
  pixelFlags_bad : Bool
  pixelFlags_nodata : Bool
  pixelFlags_interpolated : Bool
  pixelFlags_saturated : Bool
  pixelFlags_suspect : Bool

/-- The result dict returned on a pass: exactly the five computed metrics. -/
structure FeatureResult where
  snr : ℝ
  flux_ext : ℝ
  i_ext : ℝ
  ellip_ext : ℝ
  temp_sci_flux_ratio : ℝ

/-- The threshold configuration: the five cut floors plus the per-band
template-flux caps.  The two source modules are two values of this type. -/
structure ThresholdConfig where
  snr_floor : ℝ
  flux_ext_floor : ℝ
  i_ext_floor : ℝ
  ellip_ext_floor : ℝ
  temp_sci_flux_ratio_floor : ℝ
  flux_caps : String → Option ℝ

/-- `BAND_FLUX_THRESHOLDS` of `filters/extendedness.py` (lines 5-12). -/
def BAND_FLUX_THRESHOLDS : String → Option ℝ := fun b =>
  if b = "u" then some 178286.7
  else if b = "g" then some 255131.4
  else if b = "r" then some 657111.2
  else if b = "i" then some 743053.0
  else if b = "z" then some 963585.1
  else if b = "y" then some 1013290.7
  else none

/-- The preset of `filters/extendedness.py`: its cut constants appear inline
in `evaluate` (snr 15.0, flux_ext 1.259, i_ext 1.5, ellip_ext 0.2,
temp/sci ratio 0.25) and its band caps are `BAND_FLUX_THRESHOLDS`. -/
def filtersPreset : ThresholdConfig where
  snr_floor := 15.0
  flux_ext_floor := 1.259
  i_ext_floor := 1.5
  ellip_ext_floor := 0.2
  temp_sci_flux_ratio_floor := 0.25
  flux_caps := BAND_FLUX_THRESHOLDS

/-- The `thresholds` dict of `src/lantern/filters/extendedness.py`
(lines 5-19). -/
def thresholds : ThresholdConfig where
  snr_floor := 5
  flux_ext_floor := 0.35
  i_ext_floor := 0.5
  ellip_ext_floor := 0.2
  temp_sci_flux_ratio_floor := 0.85
  flux_caps := fun b =>
    if b = "u" then some 88644.7
    else if b = "g" then some 118074.2
    else if b = "r" then some 166872.5
    else if b = "i" then some 203090.9
    else if b = "z" then some 257254.0
    else if b = "y" then some 264794.0
    else none

/-- `_ellipticity` (lines 15-20): `sqrt((ixx-iyy)^2 + 4*ixy^2) / (ixx+iyy)`,
returning `0.0` when the denominator `ixx + iyy` is exactly zero. -/
noncomputable def ellipticity (ixx iyy ixy : ℝ) : ℝ :=
  if ixx + iyy = 0 then 0
  else Real.sqrt ((ixx - iyy) ^ 2 + 4.0 * ixy ^ 2) / (ixx + iyy)

/-- `all_pos` (line 46): all three measured fluxes strictly positive. -/
def all_pos (p : AlertProps) : Prop :=
  p.psfFlux > 0.0 ∧ p.apFlux > 0.0 ∧ p.scienceFlux > 0.0

/-- `all_neg` (line 47): all three measured fluxes strictly negative. -/
def all_neg (p : AlertProps) : Prop :=
  p.psfFlux < 0.0 ∧ p.apFlux < 0.0 ∧ p.scienceFlux < 0.0

/-- The condition of the quality-cut `any([...])` (lines 48-59): the eight
boolean quality flags, the SNR floor, and the flux-sign consistency check. -/
def qualityGateFails (cfg : ThresholdConfig) (p : AlertProps) : Prop :=
  p.apFlux_flag = true ∨
  p.psfFlux_flag = true ∨
  p.pixelFlags_cr = true ∨
  p.pixelFlags_bad = true ∨
  p.pixelFlags_nodata = true ∨
  p.pixelFlags_interpolated = true ∨
  p.pixelFlags_saturated = true ∨
  p.pixelFlags_suspect = true ∨
  p.snr ≤ cfg.snr_floor ∨
  ¬(all_pos p ∨ all_neg p)

noncomputable instance (cfg : ThresholdConfig) (p : AlertProps) :
    Decidable (qualityGateFails cfg p) := by
  unfold qualityGateFails all_pos all_neg; infer_instance

/-- `evaluate` (lines 23-96 of `filters/extendedness.py`, identically
lines 30-103 of `src/lantern/filters/extendedness.py` with its own
thresholds): run all cuts, returning the computed metrics on a pass and
`none` when any cut fails.  The branch structure mirrors the source line by
line; the engineered features are the let-bound expressions of lines 72-75. -/
noncomputable def evaluate (cfg : ThresholdConfig) (p : AlertProps) :
    Option FeatureResult :=
  -- Quality cuts (lines 48-60)
  if qualityGateFails cfg p then none
  -- ensure no division by zero (lines 65-66)
  else if p.psfFlux = 0.0 ∨ p.scienceFlux = 0.0 then none
  -- psf_trace == 0.0 (lines 67-69)
  else if p.ixxPSF + p.iyyPSF = 0.0 then none
  else
    -- engineered extendedness features (lines 72-75)
    let flux_ext : ℝ := p.apFlux / p.psfFlux
    let ellip_ext : ℝ :=
      ellipticity p.ixx p.iyy p.ixy - ellipticity p.ixxPSF p.iyyPSF p.ixyPSF
    let i_ext : ℝ := (p.ixx + p.iyy) / (p.ixxPSF + p.iyyPSF)
    let temp_sci_flux_ratio : ℝ := p.templateFlux / p.scienceFlux
    -- extendedness cuts (lines 78-79)
    if flux_ext ≤ cfg.flux_ext_floor ∨ i_ext ≤ cfg.i_ext_floor ∨
        ellip_ext ≤ cfg.ellip_ext_floor then none
    -- moving object cut (lines 82-83)
    else if temp_sci_flux_ratio ≤ cfg.temp_sci_flux_ratio_floor then none
    else
      -- per-band template flux cut (lines 86-88)
      match cfg.flux_caps p.band with
      | none => none
      | some threshold =>
        if p.templateFlux ≥ threshold then none
        else some
          { snr := p.snr
            flux_ext := flux_ext
            i_ext := i_ext
            ellip_ext := ellip_ext
            temp_sci_flux_ratio := temp_sci_flux_ratio }

/-- `evaluate` with the flux half of the degeneracy guard (lines 65-66,
`psf_flux == 0.0 or science_flux == 0.0`) deleted; used to state that the
guard branch is unreachable once the quality cuts have passed. -/
noncomputable def evaluateNoGuard (cfg : ThresholdConfig) (p : AlertProps) :
    Option FeatureResult :=
  if qualityGateFails cfg p then none
  else if p.ixxPSF + p.iyyPSF = 0.0 then none
  else
    let flux_ext : ℝ := p.apFlux / p.psfFlux
    let ellip_ext : ℝ :=
      ellipticity p.ixx p.iyy p.ixy - ellipticity p.ixxPSF p.iyyPSF p.ixyPSF
    let i_ext : ℝ := (p.ixx + p.iyy) / (p.ixxPSF + p.iyyPSF)
    let temp_sci_flux_ratio : ℝ := p.templateFlux / p.scienceFlux
    if flux_ext ≤ cfg.flux_ext_floor ∨ i_ext ≤ cfg.i_ext_floor ∨
        ellip_ext ≤ cfg.ellip_ext_floor then none
    else if temp_sci_flux_ratio ≤ cfg.temp_sci_flux_ratio_floor then none
    else
      match cfg.flux_caps p.band with
      | none => none
      | some threshold =>
        if p.templateFlux ≥ threshold then none
        else some
          { snr := p.snr
            flux_ext := flux_ext
            i_ext := i_ext
            ellip_ext := ellip_ext
            temp_sci_flux_ratio := temp_sci_flux_ratio }

/-- The end-to-end example of spec §8: every cut of the stricter preset
passes. -/
def exampleProps : AlertProps where
  psfFlux := 100
  apFlux := 200
  scienceFlux := 500
  templateFlux := 200
  snr := 20
  band := "r"
  ixx := 5
  iyy := 3
  ixy := 1
  ixxPSF := 2
  iyyPSF := 2
  ixyPSF := 0
  apFlux_flag := false
  psfFlux_flag := false
  pixelFlags_cr := false
  pixelFlags_bad := false
  pixelFlags_nodata := false
  pixelFlags_interpolated := false
  pixelFlags_saturated := false
  pixelFlags_suspect := false

/-- The §8 example with all four fluxes negated: an all-negative flux triple
for which every cut still passes (all the flux-derived features are ratios of
like-signed quantities). -/
def negExampleProps : AlertProps where
  psfFlux := -100
  apFlux := -200
  scienceFlux := -500
  templateFlux := -200
  snr := 20
  band := "r"
  ixx := 5
  iyy := 3
  ixy := 1
  ixxPSF := 2
  iyyPSF := 2
  ixyPSF := 0
  apFlux_flag := false
  psfFlux_flag := false
  pixelFlags_cr := false
  pixelFlags_bad := false
  pixelFlags_nodata := false
  pixelFlags_interpolated := false
  pixelFlags_saturated := false
  pixelFlags_suspect := false

/-- The §8 example with the science flux negated: a mixed-sign flux triple. -/
def mixedProps : AlertProps :=
  { exampleProps with scienceFlux := -5 }

/-- The §8 negative example: the passing input with the saturated pixel flag
set. -/
def saturatedProps : AlertProps :=
  { exampleProps with pixelFlags_saturated := true }

/-- The §8 example with a band string that is not a key of any cap table. -/
def unknownBandProps : AlertProps :=
  { exampleProps with band := "w" }

/-!
Dict-level model.  The source reads its input from a Python dict; a missing
key raises `KeyError` before any cut is decided (every key is read, lines
31-43 and 48-56, before the first `return`).  We model the dict as a partial
mapping from key strings to values and the read phase as an `Except`
computation that fails on a missing key.
-/

/-- A value stored in the properties dict: the fields are numeric, boolean
or (for the band) string. -/
inductive PropValue where
  | num (x : ℝ)
  | bool (b : Bool)
  | str (s : String)

/-- Python truthiness of a dict value, as applied by `any([...])` to the
eight flag entries. -/
noncomputable def truthy : PropValue → Bool
  | .num x => decide (x ≠ 0)
  | .bool b => b
  | .str s => decide (s ≠ "")

/-- Read a numeric field: a missing key fails (KeyError); a boolean value is
Python-numeric (`True == 1`, `False == 0`); a string value fails at its first
use in a comparison (TypeError). -/
def getNum (d : String → Option PropValue) (k : String) : Except String ℝ :=
  match d k with
  | none => .error k
  | some (.num x) => .ok x
  | some (.bool b) => .ok (if b then 1 else 0)
  | some (.str _) => .error k

/-- Read the band field: a missing key fails (KeyError). -/
def getStr (d : String → Option PropValue) (k : String) :
    Except String String :=
  match d k with
  | none => .error k
  | some (.str s) => .ok s
  | some _ => .error k

/-- Read a quality-flag field: a missing key fails (KeyError); any present
value is used through its truthiness. -/
noncomputable def getFlag (d : String → Option PropValue) (k : String) :
    Except String Bool :=
  match d k with
  | none => .error k
  | some v => .ok (truthy v)

def kPsfFlux : String := "lsst_diaSource_psfFlux"
def kApFlux : String := "lsst_diaSource_apFlux"
def kScienceFlux : String := "lsst_diaSource_scienceFlux"
def kTemplateFlux : String := "lsst_diaSource_templateFlux"
def kSnr : String := "lsst_diaSource_snr"
def kBand : String := "lsst_diaSource_band"
def kIxx : String := "lsst_diaSource_ixx"
def kIyy : String := "lsst_diaSource_iyy"
def kIxy : String := "lsst_diaSource_ixy"
def kIxxPSF : String := "lsst_diaSource_ixxPSF"
def kIyyPSF : String := "lsst_diaSource_iyyPSF"
def kIxyPSF : String := "lsst_diaSource_ixyPSF"
def kApFluxFlag : String := "lsst_diaSource_apFlux_flag"
def kPsfFluxFlag : String := "lsst_diaSource_psfFlux_flag"
def kCr : String := "lsst_diaSource_pixelFlags_cr"
def kBad : String := "lsst_diaSource_pixelFlags_bad"
def kNodata : String := "lsst_diaSource_pixelFlags_nodata"
def kInterpolated : String := "lsst_diaSource_pixelFlags_interpolated"
def kSaturated : String := "lsst_diaSource_pixelFlags_saturated"
def kSuspect : String := "lsst_diaSource_pixelFlags_suspect"

/-- The twenty keys the source reads from the properties dict. -/
def requiredKeys : List String :=
  [kPsfFlux, kApFlux, kScienceFlux, kTemplateFlux, kSnr, kBand,
   kIxx, kIyy, kIxy, kIxxPSF, kIyyPSF, kIxyPSF,
   kApFluxFlag, kPsfFluxFlag, kCr, kBad, kNodata, kInterpolated,
   kSaturated, kSuspect]

/-- The read phase of `evaluate` (lines 31-43 and the flag reads of
lines 48-56): every required key is fetched, in source order, before any cut
is decided; the first missing key aborts the call with its key name. -/
noncomputable def readProps (d : String → Option PropValue) :
    Except String AlertProps := do
  let psf_flux ← getNum d kPsfFlux
  let ap_flux ← getNum d kApFlux
  let science_flux ← getNum d kScienceFlux
  let template_flux ← getNum d kTemplateFlux
  let snr ← getNum d kSnr
  let band ← getStr d kBand
  let ixx ← getNum d kIxx
  let iyy ← getNum d kIyy
  let ixy ← getNum d kIxy
  let ixx_psf ← getNum d kIxxPSF
  let iyy_psf ← getNum d kIyyPSF
  let ixy_psf ← getNum d kIxyPSF
  let f_ap ← getFlag d kApFluxFlag
  let f_psf ← getFlag d kPsfFluxFlag
  let f_cr ← getFlag d kCr
  let f_bad ← getFlag d kBad
  let f_nodata ← getFlag d kNodata
  let f_interp ← getFlag d kInterpolated
  let f_sat ← getFlag d kSaturated
  let f_susp ← getFlag d kSuspect
  return {
      psfFlux := psf_flux
      apFlux := ap_flux
      scienceFlux := science_flux
      templateFlux := template_flux
      snr := snr
      band := band
      ixx := ixx
      iyy := iyy
      ixy := ixy
      ixxPSF := ixx_psf
      iyyPSF := iyy_psf
      ixyPSF := ixy_psf
      apFlux_flag := f_ap
      psfFlux_flag := f_psf
      pixelFlags_cr := f_cr
      pixelFlags_bad := f_bad
      pixelFlags_nodata := f_nodata
      pixelFlags_interpolated := f_interp
      pixelFlags_saturated := f_sat
      pixelFlags_suspect := f_susp }

/-- `evaluate` on the raw dict: read every field (raising on a missing key),
then run the cuts.  A `KeyError` (`.error`) is thereby distinguishable from a
filter rejection (`.ok none`). -/
noncomputable def evaluateDict (cfg : ThresholdConfig)
    (d : String → Option PropValue) : Except String (Option FeatureResult) := do
  let a ← readProps d
  return evaluate cfg a

/-- The dict with no entry at all: every required key is missing. -/
def emptyDict : String → Option PropValue := fun _ => none

/-- Whether an `Except` computation raised instead of returning. -/
def raised {β : Type} : Except String β → Bool
  | .error _ => true
  | .ok _ => false

/-!
Spec-side pass predicates.  Section 4 of the spec presents the filter as a
conjunction of independent cut predicates; the following definitions
transcribe those predicates (as pass conditions) so that `evaluate` can be
compared against their logical AND.
-/

/-- Spec §4 step 1 as a pass condition: none of the eight quality flags is
set, the SNR is not at or below the floor, and the three measured fluxes are
consistently signed. -/
def passesQualityGate (cfg : ThresholdConfig) (p : AlertProps) : Prop :=
  p.apFlux_flag = false ∧ p.psfFlux_flag = false ∧ p.pixelFlags_cr = false ∧
  p.pixelFlags_bad = false ∧ p.pixelFlags_nodata = false ∧
  p.pixelFlags_interpolated = false ∧ p.pixelFlags_saturated = false ∧
  p.pixelFlags_suspect = false ∧ ¬(p.snr ≤ cfg.snr_floor) ∧
  (all_pos p ∨ all_neg p)

/-- Spec §4 steps 1-5 as pass conditions: quality gate, degeneracy guard,
the three extendedness cuts and the moving-object cut — every cut except the
final per-band template-flux cap. -/
def passesAllButCap (cfg : ThresholdConfig) (p : AlertProps) : Prop :=
  passesQualityGate cfg p ∧
  ¬(p.psfFlux = 0.0 ∨ p.scienceFlux = 0.0) ∧
  ¬(p.ixxPSF + p.iyyPSF = 0.0) ∧
  ¬(p.apFlux / p.psfFlux ≤ cfg.flux_ext_floor ∨
    (p.ixx + p.iyy) / (p.ixxPSF + p.iyyPSF) ≤ cfg.i_ext_floor ∨
    ellipticity p.ixx p.iyy p.ixy - ellipticity p.ixxPSF p.iyyPSF p.ixyPSF ≤
      cfg.ellip_ext_floor) ∧
  ¬(p.templateFlux / p.scienceFlux ≤ cfg.temp_sci_flux_ratio_floor)

/-- Spec §4, all six steps as a conjunction of pass conditions: the cuts of
`passesAllButCap` together with the per-band template-flux cap (the band must
be a key of `flux_caps` and the template flux must be strictly below the
band's cap). -/
def passesAllCuts (cfg : ThresholdConfig) (p : AlertProps) : Prop :=
  passesAllButCap cfg p ∧
  ∃ cap, cfg.flux_caps p.band = some cap ∧ ¬(p.templateFlux ≥ cap)

lemma not_qualityGateFails_iff (cfg : ThresholdConfig) (p : AlertProps) :
    ¬ qualityGateFails cfg p ↔ passesQualityGate cfg p := by
  unfold qualityGateFails passesQualityGate
  push_neg
  simp only [Bool.not_eq_true, not_not]

lemma evaluate_of_passesAllCuts (cfg : ThresholdConfig) (p : AlertProps)
    (h : passesAllCuts cfg p) :
    evaluate cfg p = some
      { snr := p.snr
        flux_ext := p.apFlux / p.psfFlux
        i_ext := (p.ixx + p.iyy) / (p.ixxPSF + p.iyyPSF)
        ellip_ext :=
          ellipticity p.ixx p.iyy p.ixy - ellipticity p.ixxPSF p.iyyPSF p.ixyPSF
        temp_sci_flux_ratio := p.templateFlux / p.scienceFlux } := by
  obtain ⟨⟨hq, hd, ht, he, hm⟩, cap, hcap, hcapn⟩ := h
  unfold evaluate
  rw [if_neg ((not_qualityGateFails_iff cfg p).mpr hq), if_neg hd, if_neg ht]
  dsimp only
  rw [if_neg he, if_neg hm, hcap]
  dsimp only
  rw [if_neg hcapn]

lemma evaluate_of_not_passesAllCuts (cfg : ThresholdConfig) (p : AlertProps)
    (h : ¬ passesAllCuts cfg p) : evaluate cfg p = none := by
  unfold evaluate
  split_ifs with h1 h2 h3
  · rfl
  · rfl
  · rfl
  · dsimp only
    split_ifs with h4 h5
    · rfl
    · rfl
    · cases hcap : cfg.flux_caps p.band with
      | none => rfl
      | some cap =>
        dsimp only
        split_ifs with h6
        · rfl
        · exact absurd
            ⟨⟨(not_qualityGateFails_iff cfg p).mp h1, h2, h3, h4, h5⟩,
              cap, hcap, h6⟩ h

lemma evaluate_isSome_iff (cfg : ThresholdConfig) (p : AlertProps) :
    (evaluate cfg p).isSome = true ↔ passesAllCuts cfg p := by
  by_cases h : passesAllCuts cfg p
  · simp [evaluate_of_passesAllCuts cfg p h, h]
  · simp [evaluate_of_not_passesAllCuts cfg p h, h]

lemma evaluate_eq_none_iff (cfg : ThresholdConfig) (p : AlertProps) :
    evaluate cfg p = none ↔ ¬ passesAllCuts cfg p := by
  by_cases h : passesAllCuts cfg p
  · simp [evaluate_of_passesAllCuts cfg p h, h]
  · simp [evaluate_of_not_passesAllCuts cfg p h, h]

lemma ellipticity_5_3_1 : ellipticity 5 3 1 = Real.sqrt 8 / 8 := by
  unfold ellipticity
  rw [if_neg (by norm_num : ¬((5:ℝ) + 3 = 0))]
  norm_num

lemma ellipticity_2_2_0 : ellipticity 2 2 0 = 0 := by
  unfold ellipticity
  rw [if_neg (by norm_num : ¬((2:ℝ) + 2 = 0))]
  norm_num [Real.sqrt_zero]

lemma ellip_ext_example_gt :
    (0.2:ℝ) < ellipticity 5 3 1 - ellipticity 2 2 0 := by
  rw [ellipticity_5_3_1, ellipticity_2_2_0, sub_zero,
    lt_div_iff₀ (by norm_num : (0:ℝ) < 8)]
  have h : (1.6:ℝ) < Real.sqrt 8 := (Real.lt_sqrt (by norm_num)).mpr (by norm_num)
  linarith

lemma examplePasses : passesAllCuts filtersPreset exampleProps := by
  refine ⟨⟨⟨rfl, rfl, rfl, rfl, rfl, rfl, rfl, rfl, ?_, Or.inl ?_⟩,
    ?_, ?_, ?_, ?_⟩, 657111.2, ?_, ?_⟩
  · norm_num [exampleProps, filtersPreset]
  · refine ⟨?_, ?_, ?_⟩ <;> norm_num [exampleProps]
  · norm_num [exampleProps]
  · norm_num [exampleProps]
  · simp only [exampleProps, filtersPreset]
    push_neg
    refine ⟨by norm_num, by norm_num, ?_⟩
    exact ellip_ext_example_gt
  · norm_num [exampleProps, filtersPreset]
  · rfl
  · norm_num [exampleProps]

lemma except_bind_ok_iff {α β : Type} (x : Except String α)
    (f : α → Except String β) (b : β) :
    (x >>= f) = .ok b ↔ ∃ a, x = .ok a ∧ f a = .ok b := by
  cases x with
  | error e => simp [Bind.bind, Except.bind]
  | ok a => simp [Bind.bind, Except.bind]

lemma except_pure_eq {β : Type} (b : β) :
    (pure b : Except String β) = .ok b := rfl

lemma getNum_isSome {d : String → Option PropValue} {k : String} {x : ℝ}
    (h : getNum d k = .ok x) : (d k).isSome = true := by
  unfold getNum at h
  cases hd : d k with
  | none => rw [hd] at h; simp at h
  | some v => rfl

lemma getStr_isSome {d : String → Option PropValue} {k s : String}
    (h : getStr d k = .ok s) : (d k).isSome = true := by
  unfold getStr at h
  cases hd : d k with
  | none => rw [hd] at h; simp at h
  | some v => rfl

lemma getFlag_isSome {d : String → Option PropValue} {k : String} {b : Bool}
    (h : getFlag d k = .ok b) : (d k).isSome = true := by
  unfold getFlag at h
  cases hd : d k with
  | none => rw [hd] at h; simp at h
  | some v => rfl

lemma readProps_ok_keys (d : String → Option PropValue) (a : AlertProps)
    (h : readProps d = .ok a) : ∀ k ∈ requiredKeys, (d k).isSome = true := by
  unfold readProps at h
  simp only [except_bind_ok_iff, except_pure_eq] at h
  obtain ⟨v1, h1, v2, h2, v3, h3, v4, h4, v5, h5, v6, h6, v7, h7, v8, h8,
    v9, h9, v10, h10, v11, h11, v12, h12, v13, h13, v14, h14, v15, h15,
    v16, h16, v17, h17, v18, h18, v19, h19, v20, h20, -⟩ := h
  intro k hk
  simp only [requiredKeys, List.mem_cons, List.not_mem_nil, or_false] at hk
  rcases hk with rfl | rfl | rfl | rfl | rfl | rfl | rfl | rfl | rfl | rfl |
    rfl | rfl | rfl | rfl | rfl | rfl | rfl | rfl | rfl | rfl
  · exact getNum_isSome h1
  · exact getNum_isSome h2
  · exact getNum_isSome h3
  · exact getNum_isSome h4
  · exact getNum_isSome h5
  · exact getStr_isSome h6
  · exact getNum_isSome h7
  · exact getNum_isSome h8
  · exact getNum_isSome h9
  · exact getNum_isSome h10
  · exact getNum_isSome h11
  · exact getNum_isSome h12
  · exact getFlag_isSome h13
  · exact getFlag_isSome h14
  · exact getFlag_isSome h15
  · exact getFlag_isSome h16
  · exact getFlag_isSome h17
  · exact getFlag_isSome h18
  · exact getFlag_isSome h19
  · exact getFlag_isSome h20

lemma negExamplePasses : passesAllCuts filtersPreset negExampleProps := by
  refine ⟨⟨⟨rfl, rfl, rfl, rfl, rfl, rfl, rfl, rfl, ?_, Or.inr ?_⟩,
    ?_, ?_, ?_, ?_⟩, 657111.2, ?_, ?_⟩
  · norm_num [negExampleProps, filtersPreset]
  · refine ⟨?_, ?_, ?_⟩ <;> norm_num [negExampleProps]
  · norm_num [negExampleProps]
  · norm_num [negExampleProps]
  · simp only [negExampleProps, filtersPreset]
    push_neg
    refine ⟨by norm_num, by norm_num, ?_⟩
    exact ellip_ext_example_gt
  · norm_num [negExampleProps, filtersPreset]
  · rfl
  · norm_num [negExampleProps]

/-!
Claims.
-/

/-- C1: for every input whose fields pass all cuts (quality gate, degeneracy
guard, three extendedness cuts, moving-object cut, per-band template-flux
cap), `evaluate` returns a pass result containing exactly the five features
`snr, flux_ext, i_ext, ellip_ext, temp_sci_flux_ratio`, computed as
`flux_ext = apFlux/psfFlux`,
`ellip_ext = ellipticity(ixx,iyy,ixy) - ellipticity(ixxPSF,iyyPSF,ixyPSF)`,
`i_ext = (ixx+iyy)/(ixxPSF+iyyPSF)`,
`temp_sci_flux_ratio = templateFlux/scienceFlux`, and `snr` equal to the
input snr. -/
theorem evaluate_pass_returns_features (cfg : ThresholdConfig)
    (p : AlertProps) (h : passesAllCuts cfg p) :
    evaluate cfg p = some
      { snr := p.snr
        flux_ext := p.apFlux / p.psfFlux
        i_ext := (p.ixx + p.iyy) / (p.ixxPSF + p.iyyPSF)
        ellip_ext :=
          ellipticity p.ixx p.iyy p.ixy - ellipticity p.ixxPSF p.iyyPSF p.ixyPSF
        temp_sci_flux_ratio := p.templateFlux / p.scienceFlux } :=
  evaluate_of_passesAllCuts cfg p h

/-- Witness for C1: the end-to-end example of spec §8 passes every cut of the
stricter preset and produces exactly the five computed features. -/
theorem evaluate_pass_returns_features_witness :
    passesAllCuts filtersPreset exampleProps ∧
    evaluate filtersPreset exampleProps = some
      { snr := exampleProps.snr
        flux_ext := exampleProps.apFlux / exampleProps.psfFlux
        i_ext := (exampleProps.ixx + exampleProps.iyy) /
          (exampleProps.ixxPSF + exampleProps.iyyPSF)
        ellip_ext :=
          ellipticity exampleProps.ixx exampleProps.iyy exampleProps.ixy -
          ellipticity exampleProps.ixxPSF exampleProps.iyyPSF exampleProps.ixyPSF
        temp_sci_flux_ratio :=
          exampleProps.templateFlux / exampleProps.scienceFlux } :=
  ⟨examplePasses,
   evaluate_pass_returns_features filtersPreset exampleProps examplePasses⟩

/-- C2: the order of the cuts does not affect the result: `evaluate` returns
a pass exactly when the logical AND of all the individual cut predicates of
spec §4 holds, so any reordering of the cuts yields the same pass/reject
outcome. -/
theorem evaluate_pass_iff_conjunction_of_cuts (cfg : ThresholdConfig)
    (p : AlertProps) :
    (evaluate cfg p).isSome = true ↔ passesAllCuts cfg p :=
  evaluate_isSome_iff cfg p

/-- C3: a flux triple that is neither all strictly positive nor all strictly
negative always rejects, for every configuration; and there are an
all-positive triple and an all-negative triple (with every other cut
satisfied) that pass under the stricter shipped preset. -/
theorem flux_sign_cut :
    (∀ (cfg : ThresholdConfig) (p : AlertProps),
      ¬(all_pos p ∨ all_neg p) → evaluate cfg p = none) ∧
    (∃ p : AlertProps, all_pos p ∧ (evaluate filtersPreset p).isSome = true) ∧
    (∃ p : AlertProps, all_neg p ∧ (evaluate filtersPreset p).isSome = true) := by
  refine ⟨fun cfg p h => ?_, ⟨exampleProps, ?_, ?_⟩, ⟨negExampleProps, ?_, ?_⟩⟩
  · have hq : qualityGateFails cfg p := by unfold qualityGateFails; tauto
    unfold evaluate
    rw [if_pos hq]
  · refine ⟨?_, ?_, ?_⟩ <;> norm_num [exampleProps]
  · rw [evaluate_isSome_iff]; exact examplePasses
  · refine ⟨?_, ?_, ?_⟩ <;> norm_num [negExampleProps]
  · rw [evaluate_isSome_iff]; exact negExamplePasses

/-- Witness for C3: the §8 example with a negated science flux (a mixed-sign
triple) is rejected. -/
theorem flux_sign_cut_witness :
    evaluate filtersPreset mixedProps = none :=
  flux_sign_cut.1 filtersPreset mixedProps (by
    rintro (⟨-, -, h⟩ | ⟨h, -, -⟩)
    · norm_num [mixedProps, exampleProps] at h
    · norm_num [mixedProps, exampleProps] at h)

/-- C4: for all real `ixx, iyy, ixy`, if `ixx + iyy = 0` then `ellipticity`
returns exactly `0` (without error — it is a total function); otherwise it
returns `sqrt((ixx - iyy)^2 + 4*ixy^2) / (ixx + iyy)`. -/
theorem ellipticity_spec (ixx iyy ixy : ℝ) :
    (ixx + iyy = 0 → ellipticity ixx iyy ixy = 0) ∧
    (ixx + iyy ≠ 0 →
      ellipticity ixx iyy ixy =
        Real.sqrt ((ixx - iyy) ^ 2 + 4.0 * ixy ^ 2) / (ixx + iyy)) := by
  constructor
  · intro h; unfold ellipticity; rw [if_pos h]
  · intro h; unfold ellipticity; rw [if_neg h]

/-- Witness for C4: a degenerate trace (`3 + (-3) = 0`) with arbitrary `ixy`
yields `0`, and a non-degenerate input yields the formula. -/
theorem ellipticity_spec_witness :
    ellipticity 3 (-3) 7 = 0 ∧
    ellipticity 5 3 1 = Real.sqrt ((5 - 3) ^ 2 + 4.0 * 1 ^ 2) / (5 + 3) :=
  ⟨(ellipticity_spec 3 (-3) 7).1 (by norm_num),
   (ellipticity_spec 5 3 1).2 (by norm_num)⟩

/-- C5: if any of the eight boolean quality flags is true, `evaluate` returns
rejection, regardless of all other field values and of the configuration. -/
theorem quality_flags_reject (cfg : ThresholdConfig) (p : AlertProps)
    (h : p.apFlux_flag = true ∨ p.psfFlux_flag = true ∨
      p.pixelFlags_cr = true ∨ p.pixelFlags_bad = true ∨
      p.pixelFlags_nodata = true ∨ p.pixelFlags_interpolated = true ∨
      p.pixelFlags_saturated = true ∨ p.pixelFlags_suspect = true) :
    evaluate cfg p = none := by
  have hq : qualityGateFails cfg p := by unfold qualityGateFails; tauto
  unfold evaluate
  rw [if_pos hq]

/-- Witness for C5: the §8 negative example — the passing input with the
saturated pixel flag set — is rejected. -/
theorem quality_flags_reject_witness :
    evaluate filtersPreset saturatedProps = none :=
  quality_flags_reject filtersPreset saturatedProps
    (Or.inr (Or.inr (Or.inr (Or.inr (Or.inr (Or.inr (Or.inl rfl)))))))

/-- C6: boundary of the per-band template-flux cap: for an input whose band
has a cap and that passes every other cut, `evaluate` rejects exactly when
`templateFlux` is at or above the band's cap (so strictly below the cap it
passes). -/
theorem template_cap_boundary (cfg : ThresholdConfig) (p : AlertProps)
    (cap : ℝ) (hcap : cfg.flux_caps p.band = some cap)
    (h : passesAllButCap cfg p) :
    evaluate cfg p = none ↔ cap ≤ p.templateFlux := by
  rw [evaluate_eq_none_iff]
  unfold passesAllCuts
  constructor
  · intro hn
    by_contra hge
    exact hn ⟨h, cap, hcap, fun hc => hge hc⟩
  · rintro hge ⟨-, cap2, hcap2, hlt⟩
    rw [hcap] at hcap2
    obtain rfl : cap = cap2 := Option.some.inj hcap2
    exact hlt hge

/-- Witness for C6: the §8 example (band `r`, cap `657111.2`) passes every
other cut and its template flux `200` is below the cap, so the rejection
condition is equivalent to the false inequality `657111.2 ≤ 200`. -/
theorem template_cap_boundary_witness :
    evaluate filtersPreset exampleProps = none ↔
      (657111.2 : ℝ) ≤ exampleProps.templateFlux :=
  template_cap_boundary filtersPreset exampleProps 657111.2 rfl
    examplePasses.1

/-- C7: a band value that is not a key of the configuration's `flux_caps`
map always rejects, regardless of all other field values. -/
theorem unknown_band_rejects (cfg : ThresholdConfig) (p : AlertProps)
    (h : cfg.flux_caps p.band = none) : evaluate cfg p = none := by
  rw [evaluate_eq_none_iff]
  rintro ⟨-, cap, hcap, -⟩
  rw [h] at hcap
  exact Option.noConfusion hcap

/-- Witness for C7: the §8 example, which passes every other cut, is rejected
once its band is changed to `w`, a string absent from the cap table. -/
theorem unknown_band_rejects_witness :
    evaluate filtersPreset unknownBandProps = none :=
  unknown_band_rejects filtersPreset unknownBandProps rfl

/-- C8: `evaluate` is a deterministic, pure function of the twenty input
fields and the configuration: two inputs that agree on every field yield
identical output (the embedding is side-effect free, so neither the input
nor the configuration can be mutated by a call). -/
theorem evaluate_deterministic (cfg : ThresholdConfig) (p q : AlertProps)
    (h : p.psfFlux = q.psfFlux ∧ p.apFlux = q.apFlux ∧
      p.scienceFlux = q.scienceFlux ∧ p.templateFlux = q.templateFlux ∧
      p.snr = q.snr ∧ p.band = q.band ∧ p.ixx = q.ixx ∧ p.iyy = q.iyy ∧
      p.ixy = q.ixy ∧ p.ixxPSF = q.ixxPSF ∧ p.iyyPSF = q.iyyPSF ∧
      p.ixyPSF = q.ixyPSF ∧ p.apFlux_flag = q.apFlux_flag ∧
      p.psfFlux_flag = q.psfFlux_flag ∧ p.pixelFlags_cr = q.pixelFlags_cr ∧
      p.pixelFlags_bad = q.pixelFlags_bad ∧
      p.pixelFlags_nodata = q.pixelFlags_nodata ∧
      p.pixelFlags_interpolated = q.pixelFlags_interpolated ∧
      p.pixelFlags_saturated = q.pixelFlags_saturated ∧
      p.pixelFlags_suspect = q.pixelFlags_suspect) :
    evaluate cfg p = evaluate cfg q := by
  obtain ⟨h1, h2, h3, h4, h5, h6, h7, h8, h9, h10, h11, h12, h13, h14, h15,
    h16, h17, h18, h19, h20⟩ := h
  have hpq : p = q :=
    AlertProps.ext h1 h2 h3 h4 h5 h6 h7 h8 h9 h10 h11 h12 h13 h14 h15 h16
      h17 h18 h19 h20
  rw [hpq]

/-- Witness for C8: the §8 example compared with itself field by field. -/
theorem evaluate_deterministic_witness :
    evaluate filtersPreset exampleProps = evaluate filtersPreset exampleProps :=
  evaluate_deterministic filtersPreset exampleProps exampleProps
    ⟨rfl, rfl, rfl, rfl, rfl, rfl, rfl, rfl, rfl, rfl, rfl, rfl, rfl, rfl,
     rfl, rfl, rfl, rfl, rfl, rfl⟩

/-- C9: an input mapping from which at least one required field is absent
makes the evaluation fail with an error (the KeyError of the read phase)
rather than return the rejection result, so a caller error is distinguishable
from a filter rejection. -/
theorem missing_key_raises (cfg : ThresholdConfig)
    (d : String → Option PropValue) (k : String) (hk : k ∈ requiredKeys)
    (hmiss : d k = none) : raised (evaluateDict cfg d) = true := by
  cases hr : readProps d with
  | error e =>
    unfold evaluateDict
    rw [hr]
    rfl
  | ok a =>
    have h2 := readProps_ok_keys d a hr k hk
    rw [hmiss] at h2
    simp at h2

/-- Witness for C9: the empty dict is missing the psfFlux key, so evaluation
raises instead of rejecting. -/
theorem missing_key_raises_witness :
    raised (evaluateDict filtersPreset emptyDict) = true :=
  missing_key_raises filtersPreset emptyDict kPsfFlux
    (by simp [requiredKeys]) rfl

/-- C10: when the quality gate has passed, the flux-sign consistency already
forces `psfFlux ≠ 0` and `scienceFlux ≠ 0`; hence the `psfFlux == 0.0 or
scienceFlux == 0.0` branch of the degeneracy guard is unreachable (deleting
it does not change the result), and — together with the separately guarded
PSF trace — every division performed during feature computation
(`apFlux/psfFlux`, `templateFlux/scienceFlux`, `(ixx+iyy)/(ixxPSF+iyyPSF)`)
has a nonzero denominator. -/
theorem degeneracy_guard_unreachable (cfg : ThresholdConfig) (p : AlertProps)
    (hq : ¬ qualityGateFails cfg p) (ht : p.ixxPSF + p.iyyPSF ≠ 0.0) :
    (p.psfFlux ≠ 0.0 ∧ p.scienceFlux ≠ 0.0 ∧ p.ixxPSF + p.iyyPSF ≠ 0.0) ∧
    evaluate cfg p = evaluateNoGuard cfg p := by
  have hsign : all_pos p ∨ all_neg p := by
    by_contra hs
    exact hq (by unfold qualityGateFails; tauto)
  have hne : p.psfFlux ≠ 0.0 ∧ p.scienceFlux ≠ 0.0 := by
    rcases hsign with ⟨h1, -, h3⟩ | ⟨h1, -, h3⟩
    · exact ⟨ne_of_gt h1, ne_of_gt h3⟩
    · exact ⟨ne_of_lt h1, ne_of_lt h3⟩
  refine ⟨⟨hne.1, hne.2, ht⟩, ?_⟩
  unfold evaluate evaluateNoGuard
  rw [if_neg hq, if_neg hq, if_neg (by push_neg; exact hne)]

/-- Witness for C10: at the §8 example (quality gate passed, PSF trace 4),
both flux denominators are nonzero and removing the guard branch leaves the
result unchanged. -/
theorem degeneracy_guard_unreachable_witness :
    (exampleProps.psfFlux ≠ 0.0 ∧ exampleProps.scienceFlux ≠ 0.0 ∧
      exampleProps.ixxPSF + exampleProps.iyyPSF ≠ 0.0) ∧
    evaluate filtersPreset exampleProps =
      evaluateNoGuard filtersPreset exampleProps :=
  degeneracy_guard_unreachable filtersPreset exampleProps
    ((not_qualityGateFails_iff filtersPreset exampleProps).mpr
      examplePasses.1.1)
    (by norm_num [exampleProps])
